import Mathlib

/-!
Verification of the PlasmaTrader core against its specification.

The development shallowly embeds the decision-and-execution pipeline of the
repository, translated from the Python sources
`plasmatrader_core/paper_trader.py`, `plasmatrader_core/risk_controller.py`
and `plasmatrader_core/chronos_predictor.py`.  Monetary amounts and prices
are modelled as exact rationals; where a property depends on IEEE-754
binary64 rounding (the drawdown step computation), the float operations are
modelled explicitly.  The dataclasses `MarketData`, `Position`, `Trade`,
`TradingState` and `PredictionSignal` live in `core_engine.py`, which is not
among the sources; their fields are modelled from the data-model section of
the specification and from how every other module reads them.
-/

/-- Modelled from the spec: `Position` dataclass of `core_engine.py`
(symbol, side LONG or SHORT kept as the string the trader stores,
size, entry price). -/
structure Position where
  symbol : String
  side : String
  size : ℚ
  entry_price : ℚ

/-- Modelled from the spec: `Trade` audit record of `core_engine.py`.
The wall-clock timestamp carries no information relevant to any claim and
is omitted; the remaining fields are those `paper_trader.py` writes. -/
structure Trade where
  symbol : String
  side : String
  exec_price : ℚ
  size : ℚ
  pnl : ℚ
  commission : ℚ

/-- Modelled from the spec: `RiskMetrics` of `core_engine.py` with the two
fields `paper_trader.py` and `risk_controller.py` read. -/
structure RiskMetrics where
  high_water_mark : ℚ
  current_drawdown : ℚ

/-- Modelled from the spec: the `TradingState` ledger of `core_engine.py`.
The positions dictionary keyed by symbol is a function to `Option Position`;
the pandas candle frames in `historical_data` are outside the embedding (the
one consumer, realized volatility, is passed as a parameter where needed),
and the timestamp field is omitted. -/
structure TradingState where
  wallet_balance : ℚ
  positions : String → Option Position
  trades : List Trade
  risk_metrics : RiskMetrics
  total_pnl : ℚ

/-- Modelled from the spec: the live market snapshot `MarketData` assembled
in `market_feed.py` (price, bid, ask, relative spread in bps, top five book
levels as price-quantity pairs, last trade volume). -/
structure MarketData where
  price : ℚ
  bid : ℚ
  ask : ℚ
  spread : ℚ
  top_5_bids : List (ℚ × ℚ)
  top_5_asks : List (ℚ × ℚ)
  trade_volume : ℚ

/-- `Order` dataclass of `paper_trader.py`; the timestamp and the constant
order type MARKET are omitted. -/
structure Order where
  symbol : String
  side : String
  size : ℚ

/-- `TAKER_FEE` of `paper_trader.py` (0.0004). -/
def TAKER_FEE : ℚ := 4 / 10000

/-- `SLIPPAGE_FACTOR` of `paper_trader.py` (0.1). -/
def SLIPPAGE_FACTOR : ℚ := 1 / 10

/-- `PaperTradingEngine._calculate_slippage`.  Returns 0 when the cached
relative spread is non-positive or the ask book is empty; when the top ask
level is present but carries zero quantity it returns `spread * 0.1`;
otherwise the price spread scaled by the capped size ratio. -/
def calculate_slippage (order_size : ℚ) (market_data : MarketData) : ℚ :=
  if market_data.spread ≤ 0 ∨ market_data.top_5_asks = [] then 0
  else
    let top_level_qty :=
      match market_data.top_5_asks with
      | [] => 1
      | l :: _ => l.2
    if top_level_qty = 0 then market_data.spread * SLIPPAGE_FACTOR
    else
      let sizeFrac := min (order_size / top_level_qty) 1
      (market_data.ask - market_data.bid) * SLIPPAGE_FACTOR * sizeFrac

/-- The execution price of `PaperTradingEngine.execute_order`: ask plus
slippage for a BUY, bid minus slippage otherwise. -/
def exec_price_of (o : Order) (m : MarketData) : ℚ :=
  if o.side = "BUY" then m.ask + calculate_slippage o.size m
  else m.bid - calculate_slippage o.size m

/-- `PaperTradingEngine._update_risk_metrics`: raise the high-water mark to
the current balance if it exceeds it and recompute the drawdown. -/
def update_risk_metrics (s : TradingState) : TradingState :=
  let new_hwm := max s.risk_metrics.high_water_mark s.wallet_balance
  let drawdown := if 0 < new_hwm then (new_hwm - s.wallet_balance) / new_hwm else 0
  { s with risk_metrics := ⟨new_hwm, drawdown⟩ }

/-- The common tail of `execute_order` (source lines 111 to 114): append the
Trade record of the fill and recompute the risk metrics. -/
def settle (o : Order) (price commission pnl : ℚ) (s : TradingState) : TradingState :=
  update_risk_metrics
    { s with trades := s.trades ++ [⟨o.symbol, o.side, price, o.size, pnl, commission⟩] }

/-- One unfolding of the body of `PaperTradingEngine.execute_order`, with
the recursive residual re-submission abstracted as `recur`.  The four
branches follow the source: open a fresh position, stack a same-side order,
fully close an opposite position (re-issuing any residual), or partially
close.  The simulated latency sleep does not affect the state and is
dropped. -/
def execOrderGo (recur : Order → TradingState → MarketData → Option TradingState)
    (o : Order) (s : TradingState) (m : MarketData) : Option TradingState :=
  let price := exec_price_of o m
  let order_cost := o.size * price
  let commission := order_cost * TAKER_FEE
  match s.positions o.symbol with
  | none =>
      some (settle o price commission 0
        { s with
            positions := fun sym =>
              if sym = o.symbol then
                some ⟨o.symbol, if o.side = "BUY" then "LONG" else "SHORT", o.size, price⟩
              else s.positions sym,
            wallet_balance := s.wallet_balance - (order_cost + commission) })
  | some pos =>
      if (pos.side = "LONG" ∧ o.side = "BUY") ∨ (pos.side = "SHORT" ∧ o.side = "SELL") then
        let new_total_size := pos.size + o.size
        let new_entry_price := (pos.entry_price * pos.size + price * o.size) / new_total_size
        some (settle o price commission 0
          { s with
              positions := fun sym =>
                if sym = o.symbol then some ⟨pos.symbol, pos.side, new_total_size, new_entry_price⟩
                else s.positions sym,
              wallet_balance := s.wallet_balance - (order_cost + commission) })
      else if pos.size ≤ o.size then
        let closed_size := pos.size
        let entry_cost := closed_size * pos.entry_price
        let exit_cost := closed_size * price
        let pnl := if pos.side = "LONG" then exit_cost - entry_cost else entry_cost - exit_cost
        let s₁ : TradingState :=
          { s with
              wallet_balance := s.wallet_balance + (pnl - commission),
              total_pnl := s.total_pnl + pnl,
              positions := fun sym => if sym = o.symbol then none else s.positions sym }
        if closed_size < o.size then
          recur ⟨o.symbol, o.side, o.size - closed_size⟩ s₁ m
        else
          some (settle o price commission pnl s₁)
      else
        let reduced_size := o.size
        let entry_cost := reduced_size * pos.entry_price
        let exit_cost := reduced_size * price
        let pnl := if pos.side = "LONG" then exit_cost - entry_cost else entry_cost - exit_cost
        some (settle o price commission pnl
          { s with
              wallet_balance := s.wallet_balance + (pnl - commission),
              total_pnl := s.total_pnl + pnl,
              positions := fun sym =>
                if sym = o.symbol then some ⟨pos.symbol, pos.side, pos.size - reduced_size, pos.entry_price⟩
                else s.positions sym })

/-- `execute_order` with an explicit recursion budget; the Python function
recurses on the residual of an oversized close. -/
def execOrderFuel : ℕ → Order → TradingState → MarketData → Option TradingState
  | 0, _, _, _ => none
  | fuel + 1, o, s, m => execOrderGo (execOrderFuel fuel) o s m

/-- `PaperTradingEngine.execute_order`.  A budget of 2 always suffices
(proved below: the residual of a full close opens a fresh position). -/
def execute_order (o : Order) (s : TradingState) (m : MarketData) : Option TradingState :=
  execOrderFuel 2 o s m

lemma execOrderFuel_zero (o : Order) (s : TradingState) (m : MarketData) :
    execOrderFuel 0 o s m = none := rfl

lemma execOrderFuel_succ (fuel : ℕ) (o : Order) (s : TradingState) (m : MarketData) :
    execOrderFuel (fuel + 1) o s m = execOrderGo (execOrderFuel fuel) o s m := rfl

lemma execute_order_unfold (o : Order) (s : TradingState) (m : MarketData) :
    execute_order o s m = execOrderGo (execOrderFuel 1) o s m := rfl

lemma update_risk_metrics_trades (s : TradingState) :
    (update_risk_metrics s).trades = s.trades := rfl

lemma settle_trades (o : Order) (price c p : ℚ) (s : TradingState) :
    (settle o price c p s).trades = s.trades ++ [⟨o.symbol, o.side, price, o.size, p, c⟩] := rfl

lemma settle_wallet_balance (o : Order) (price c p : ℚ) (s : TradingState) :
    (settle o price c p s).wallet_balance = s.wallet_balance := rfl

lemma settle_hwm (o : Order) (price c p : ℚ) (s : TradingState) :
    (settle o price c p s).risk_metrics.high_water_mark =
      max s.risk_metrics.high_water_mark s.wallet_balance := rfl

lemma settle_dd (o : Order) (price c p : ℚ) (s : TradingState) :
    (settle o price c p s).risk_metrics.current_drawdown =
      if 0 < max s.risk_metrics.high_water_mark s.wallet_balance then
        (max s.risk_metrics.high_water_mark s.wallet_balance - s.wallet_balance) /
          max s.risk_metrics.high_water_mark s.wallet_balance
      else 0 := rfl

/-- When no position exists for the symbol, one unfolding opens a fresh
position and settles, independently of the recursion argument. -/
lemma execOrderGo_of_no_position
    (recur : Order → TradingState → MarketData → Option TradingState)
    (o : Order) (s : TradingState) (m : MarketData)
    (h : s.positions o.symbol = none) :
    execOrderGo recur o s m =
      some (settle o (exec_price_of o m) (o.size * exec_price_of o m * TAKER_FEE) 0
        { s with
            positions := fun sym =>
              if sym = o.symbol then
                some ⟨o.symbol, if o.side = "BUY" then "LONG" else "SHORT", o.size,
                      exec_price_of o m⟩
              else s.positions sym,
            wallet_balance := s.wallet_balance -
              (o.size * exec_price_of o m + o.size * exec_price_of o m * TAKER_FEE) }) := by
  simp only [execOrderGo, h]

/-- Case analysis on one unfolding of the execution body: either the call
settles directly on an intermediate state that keeps the incoming trades and
risk metrics, or it re-issues a residual order against a state that keeps
them and has no position left for the symbol. -/
lemma execOrderGo_spec
    (recur : Order → TradingState → MarketData → Option TradingState)
    (o : Order) (s : TradingState) (m : MarketData) :
    (∃ price c p s₁, execOrderGo recur o s m = some (settle o price c p s₁) ∧
        s₁.trades = s.trades ∧ s₁.risk_metrics = s.risk_metrics) ∨
    (∃ o₁ s₁, execOrderGo recur o s m = recur o₁ s₁ m ∧
        s₁.trades = s.trades ∧ s₁.risk_metrics = s.risk_metrics ∧
        s₁.positions o₁.symbol = none) := by
  unfold execOrderGo
  cases h : s.positions o.symbol with
  | none =>
      exact Or.inl ⟨_, _, _, _, rfl, rfl, rfl⟩
  | some pos =>
      by_cases h₁ : (pos.side = "LONG" ∧ o.side = "BUY") ∨ (pos.side = "SHORT" ∧ o.side = "SELL")
      · simp only [if_pos h₁]
        exact Or.inl ⟨_, _, _, _, rfl, rfl, rfl⟩
      · simp only [if_neg h₁]
        by_cases h₂ : pos.size ≤ o.size
        · simp only [if_pos h₂]
          by_cases h₃ : pos.size < o.size
          · simp only [if_pos h₃]
            refine Or.inr ⟨_, _, rfl, rfl, rfl, ?_⟩
            simp
          · simp only [if_neg h₃]
            exact Or.inl ⟨_, _, _, _, rfl, rfl, rfl⟩
        · simp only [if_neg h₂]
          exact Or.inl ⟨_, _, _, _, rfl, rfl, rfl⟩

lemma execOrderFuel_one (o : Order) (s : TradingState) (m : MarketData) :
    execOrderFuel 1 o s m = execOrderGo (execOrderFuel 0) o s m := rfl

/-- Two unfoldings of the body agree whenever their recursion arguments
agree on states that hold no position for the ordered symbol: the recursion
argument is only consulted on such states. -/
lemma execOrderGo_congr
    (recur₁ recur₂ : Order → TradingState → MarketData → Option TradingState)
    (o : Order) (s : TradingState) (m : MarketData)
    (h : ∀ o₁ s₁, s₁.positions o₁.symbol = none → recur₁ o₁ s₁ m = recur₂ o₁ s₁ m) :
    execOrderGo recur₁ o s m = execOrderGo recur₂ o s m := by
  unfold execOrderGo
  cases hp : s.positions o.symbol with
  | none => rfl
  | some pos =>
      by_cases h₁ : (pos.side = "LONG" ∧ o.side = "BUY") ∨ (pos.side = "SHORT" ∧ o.side = "SELL")
      · simp only [if_pos h₁]
      · simp only [if_neg h₁]
        by_cases h₂ : pos.size ≤ o.size
        · simp only [if_pos h₂]
          by_cases h₃ : pos.size < o.size
          · simp only [if_pos h₃]
            exact h _ _ (by simp)
          · simp only [if_neg h₃]
        · simp only [if_neg h₂]

/-- With no position held for the symbol, the outcome does not depend on the
remaining recursion budget. -/
lemma execOrderFuel_of_no_position (fuel : ℕ) (o : Order) (s : TradingState)
    (m : MarketData) (h : s.positions o.symbol = none) :
    execOrderFuel (fuel + 1) o s m = execOrderFuel 1 o s m := by
  rw [execOrderFuel_succ, execOrderFuel_one,
    execOrderGo_of_no_position _ _ _ _ h, execOrderGo_of_no_position _ _ _ _ h]

/-- C9: The residual re-submission of an oversized close terminates at depth
at most one: a recursion budget of 2 always produces a result (the residual
order finds the symbol position deleted and opens a fresh position without a
further recursive call), and any larger budget computes the same result, so
`execute_order` is total for every order. -/
theorem execute_order_total_depth_le_one (o : Order) (s : TradingState)
    (m : MarketData) (n : ℕ) :
    (execute_order o s m).isSome = true ∧
      execOrderFuel (n + 2) o s m = execute_order o s m := by
  constructor
  · rcases execOrderGo_spec (execOrderFuel 1) o s m with
      ⟨pr, c, p, s₁, heq, -, -⟩ | ⟨o₁, s₁, heq, -, -, hnone⟩
    · rw [execute_order_unfold, heq]; rfl
    · rw [execute_order_unfold, heq, execOrderFuel_one,
        execOrderGo_of_no_position _ _ _ _ hnone]
      rfl
  · show execOrderFuel (n + 1 + 1) o s m = execOrderFuel (1 + 1) o s m
    rw [execOrderFuel_succ, execOrderFuel_succ]
    exact execOrderGo_congr _ _ o s m
      (fun o₁ s₁ h₁ => execOrderFuel_of_no_position n o₁ s₁ m h₁)

/-- Every successful execution appends exactly one trade record, whatever
the recursion budget: the oversized-close path skips the closing-leg record
and only the residual leg settles. -/
lemma execOrderFuel_trades_append :
    ∀ (fuel : ℕ) (o : Order) (s : TradingState) (m : MarketData) (s' : TradingState),
      execOrderFuel fuel o s m = some s' → ∃ t, s'.trades = s.trades ++ [t] := by
  intro fuel
  induction fuel with
  | zero => intro o s m s' h; exact absurd h (by rw [execOrderFuel_zero]; exact Option.noConfusion)
  | succ k ih =>
      intro o s m s' h
      rw [execOrderFuel_succ] at h
      rcases execOrderGo_spec (execOrderFuel k) o s m with
        ⟨pr, c, p, s₁, heq, htr, -⟩ | ⟨o₁, s₁, heq, htr, -, -⟩
      · rw [heq] at h
        obtain rfl := Option.some.inj h
        exact ⟨_, by rw [settle_trades, htr]⟩
      · rw [heq] at h
        obtain ⟨t, ht⟩ := ih o₁ s₁ m s' h
        exact ⟨t, by rw [ht, htr]⟩

/-- High-water mark and drawdown facts for any successful execution, at any
recursion budget. -/
lemma execOrderFuel_risk :
    ∀ (fuel : ℕ) (o : Order) (s : TradingState) (m : MarketData) (s' : TradingState),
      0 ≤ s.risk_metrics.high_water_mark →
      execOrderFuel fuel o s m = some s' →
      s.risk_metrics.high_water_mark ≤ s'.risk_metrics.high_water_mark ∧
        0 ≤ s'.risk_metrics.current_drawdown ∧
        (0 ≤ s'.wallet_balance → s'.risk_metrics.current_drawdown ≤ 1) := by
  intro fuel
  induction fuel with
  | zero => intro o s m s' _ h; exact absurd h (by rw [execOrderFuel_zero]; exact Option.noConfusion)
  | succ k ih =>
      intro o s m s' hh h
      rw [execOrderFuel_succ] at h
      rcases execOrderGo_spec (execOrderFuel k) o s m with
        ⟨pr, c, p, s₁, heq, -, hrm⟩ | ⟨o₁, s₁, heq, -, hrm, -⟩
      · rw [heq] at h
        obtain rfl := Option.some.inj h
        refine ⟨?_, ?_, ?_⟩
        · rw [settle_hwm, hrm]
          exact le_max_left _ _
        · rw [settle_dd]
          split_ifs with hM
          · exact div_nonneg (sub_nonneg.2 (le_max_right _ _)) hM.le
          · exact le_refl 0
        · intro hb
          rw [settle_wallet_balance] at hb
          rw [settle_dd]
          split_ifs with hM
          · rw [div_le_one hM]
            linarith
          · exact zero_le_one
      · rw [heq] at h
        have hh₁ : 0 ≤ s₁.risk_metrics.high_water_mark := by rw [hrm]; exact hh
        have := ih o₁ s₁ m s' hh₁ h
        rw [hrm] at this
        exact this

lemma settle_positions (o : Order) (price c p : ℚ) (s : TradingState) :
    (settle o price c p s).positions = s.positions := rfl

lemma settle_total_pnl (o : Order) (price c p : ℚ) (s : TradingState) :
    (settle o price c p s).total_pnl = s.total_pnl := rfl

/-- The exact-close branch: an opposite-side order matching the position
size realizes the pnl of the whole position, debits the commission computed
on the full order notional, deletes the position and settles. -/
lemma execOrderGo_full_close
    (recur : Order → TradingState → MarketData → Option TradingState)
    (o : Order) (s : TradingState) (m : MarketData) (pos : Position)
    (hp : s.positions o.symbol = some pos)
    (hside : ¬((pos.side = "LONG" ∧ o.side = "BUY") ∨ (pos.side = "SHORT" ∧ o.side = "SELL")))
    (hsz : pos.size ≤ o.size) (hlt : ¬ pos.size < o.size) :
    execOrderGo recur o s m =
      some (settle o (exec_price_of o m) (o.size * exec_price_of o m * TAKER_FEE)
        (if pos.side = "LONG" then
            pos.size * exec_price_of o m - pos.size * pos.entry_price
          else pos.size * pos.entry_price - pos.size * exec_price_of o m)
        { s with
            wallet_balance := s.wallet_balance +
              ((if pos.side = "LONG" then
                  pos.size * exec_price_of o m - pos.size * pos.entry_price
                else pos.size * pos.entry_price - pos.size * exec_price_of o m) -
                o.size * exec_price_of o m * TAKER_FEE),
            total_pnl := s.total_pnl +
              (if pos.side = "LONG" then
                  pos.size * exec_price_of o m - pos.size * pos.entry_price
                else pos.size * pos.entry_price - pos.size * exec_price_of o m),
            positions := fun sym => if sym = o.symbol then none else s.positions sym }) := by
  simp only [execOrderGo, hp, if_neg hside, if_pos hsz, if_neg hlt]

/-- The oversized-close branch: the position is fully closed (with the
commission computed on the full order notional), deleted, and the residual
is re-issued through the recursion argument; no trade is recorded here. -/
lemma execOrderGo_oversized
    (recur : Order → TradingState → MarketData → Option TradingState)
    (o : Order) (s : TradingState) (m : MarketData) (pos : Position)
    (hp : s.positions o.symbol = some pos)
    (hside : ¬((pos.side = "LONG" ∧ o.side = "BUY") ∨ (pos.side = "SHORT" ∧ o.side = "SELL")))
    (hlt : pos.size < o.size) :
    execOrderGo recur o s m =
      recur ⟨o.symbol, o.side, o.size - pos.size⟩
        { s with
            wallet_balance := s.wallet_balance +
              ((if pos.side = "LONG" then
                  pos.size * exec_price_of o m - pos.size * pos.entry_price
                else pos.size * pos.entry_price - pos.size * exec_price_of o m) -
                o.size * exec_price_of o m * TAKER_FEE),
            total_pnl := s.total_pnl +
              (if pos.side = "LONG" then
                  pos.size * exec_price_of o m - pos.size * pos.entry_price
                else pos.size * pos.entry_price - pos.size * exec_price_of o m),
            positions := fun sym => if sym = o.symbol then none else s.positions sym } m := by
  simp only [execOrderGo, hp, if_neg hside, if_pos hlt.le, if_pos hlt]

/-- A degenerate but well-formed market snapshot quoting bid = ask = 100
with zero cached spread and an empty book; slippage is 0 on it. -/
def mkt100 : MarketData := ⟨100, 100, 100, 0, [], [], 0⟩

/-- A fresh ledger holding no positions and no trades. -/
def initState (bal hwm : ℚ) : TradingState := ⟨bal, fun _ => none, [], ⟨hwm, 0⟩, 0⟩

lemma slippage_mkt100 (sz : ℚ) : calculate_slippage sz mkt100 = 0 := by
  simp [calculate_slippage, mkt100]

lemma exec_price_mkt100 (o : Order) : exec_price_of o mkt100 = 100 := by
  unfold exec_price_of
  simp only [slippage_mkt100]
  norm_num [mkt100]

/-- The ledger after opening a LONG of size S at price p from a state with
no position for the symbol (zero slippage, bid = ask = p). -/
def rtOpened (sym : String) (S p : ℚ) (s : TradingState) : TradingState :=
  settle ⟨sym, "BUY", S⟩ p (S * p * TAKER_FEE) 0
    { s with
        positions := fun x => if x = sym then some ⟨sym, "LONG", S, p⟩ else s.positions x,
        wallet_balance := s.wallet_balance - (S * p + S * p * TAKER_FEE) }

/-- The ledger after additionally selling the full size S at the unchanged
price p: realized pnl 0, another commission debited, position deleted. -/
def rtClosed (sym : String) (S p : ℚ) (s : TradingState) : TradingState :=
  settle ⟨sym, "SELL", S⟩ p (S * p * TAKER_FEE) (S * p - S * p)
    { rtOpened sym S p s with
        wallet_balance := (rtOpened sym S p s).wallet_balance + (S * p - S * p - S * p * TAKER_FEE),
        total_pnl := (rtOpened sym S p s).total_pnl + (S * p - S * p),
        positions := fun x => if x = sym then none else (rtOpened sym S p s).positions x }

lemma round_trip_leg1 (sym : String) (S p : ℚ) (m : MarketData) (s : TradingState)
    (ha : m.ask = p) (hsl : calculate_slippage S m = 0) (hpos : s.positions sym = none) :
    execute_order ⟨sym, "BUY", S⟩ s m = some (rtOpened sym S p s) := by
  rw [execute_order_unfold, execOrderGo_of_no_position _ _ _ _ hpos, rtOpened]
  have hpb : exec_price_of ⟨sym, "BUY", S⟩ m = p := by
    simp [exec_price_of, hsl, ha]
  simp [hpb]

lemma round_trip_leg2 (sym : String) (S p : ℚ) (m : MarketData) (s : TradingState)
    (hb : m.bid = p) (hsl : calculate_slippage S m = 0) :
    execute_order ⟨sym, "SELL", S⟩ (rtOpened sym S p s) m = some (rtClosed sym S p s) := by
  have hps : exec_price_of ⟨sym, "SELL", S⟩ m = p := by
    simp [exec_price_of, hsl, hb]
  have hp₂ : (rtOpened sym S p s).positions (⟨sym, "SELL", S⟩ : Order).symbol =
      some ⟨sym, "LONG", S, p⟩ := by
    rw [rtOpened, settle_positions]
    simp
  rw [execute_order_unfold,
    execOrderGo_full_close (execOrderFuel 1) _ _ m ⟨sym, "LONG", S, p⟩ hp₂
      (by simp) (by simp) (by simp), rtClosed]
  simp [hps]

/-- The intermediate ledger after the closing leg of an oversized SELL
against a LONG of size P entered at e: pnl realized at price e₁, commission
charged on the full order notional S * e₁, position deleted, no trade
recorded. -/
def ovMid (sym : String) (S P e e₁ : ℚ) (s : TradingState) : TradingState :=
  { s with
      wallet_balance := s.wallet_balance + (P * e₁ - P * e - S * e₁ * TAKER_FEE),
      total_pnl := s.total_pnl + (P * e₁ - P * e),
      positions := fun x => if x = sym then none else s.positions x }

/-- The final ledger after the residual leg of the oversized SELL opened a
fresh SHORT of size S − P at price e₂. -/
def ovFinal (sym : String) (S P e e₁ e₂ : ℚ) (s : TradingState) : TradingState :=
  settle ⟨sym, "SELL", S - P⟩ e₂ ((S - P) * e₂ * TAKER_FEE) 0
    { ovMid sym S P e e₁ s with
        positions := fun x =>
          if x = sym then some ⟨sym, "SHORT", S - P, e₂⟩
          else (ovMid sym S P e e₁ s).positions x,
        wallet_balance := (ovMid sym S P e e₁ s).wallet_balance -
          ((S - P) * e₂ + (S - P) * e₂ * TAKER_FEE) }

lemma oversized_sell_eval (sym : String) (S P e : ℚ) (m : MarketData) (s : TradingState)
    (hp : s.positions sym = some ⟨sym, "LONG", P, e⟩) (hPS : P < S) :
    execute_order ⟨sym, "SELL", S⟩ s m =
      some (ovFinal sym S P e (exec_price_of ⟨sym, "SELL", S⟩ m)
        (exec_price_of ⟨sym, "SELL", S - P⟩ m) s) := by
  rw [execute_order_unfold,
    execOrderGo_oversized (execOrderFuel 1) _ _ m ⟨sym, "LONG", P, e⟩ hp (by simp) hPS,
    execOrderFuel_one, execOrderGo_of_no_position _ _ _ _ (by simp)]
  simp only [ovFinal, ovMid]
  simp

/-- C1 (amended): with zero slippage and bid = ask = p, a round trip of
positive size S at positive price p realizes pnl 0 on the closing fill, but
the wallet balance ends at the initial balance minus the open notional S*p
minus two commissions: the closing leg credits only pnl minus commission
and never returns the notional debited at the open. -/
theorem round_trip_pnl_zero_net_balance (sym : String) (S p : ℚ) (m : MarketData)
    (s : TradingState) (hS : 0 < S) (hp : 0 < p) (hb : m.bid = p) (ha : m.ask = p)
    (hsl : calculate_slippage S m = 0) (hpos : s.positions sym = none) :
    ∃ s₁ s₂, execute_order ⟨sym, "BUY", S⟩ s m = some s₁ ∧
      execute_order ⟨sym, "SELL", S⟩ s₁ m = some s₂ ∧
      (∃ t, s₂.trades = s₁.trades ++ [t] ∧ t.pnl = 0) ∧
      s₂.wallet_balance = s.wallet_balance - S * p - 2 * (S * p * TAKER_FEE) := by
  refine ⟨rtOpened sym S p s, rtClosed sym S p s,
    round_trip_leg1 sym S p m s ha hsl hpos,
    round_trip_leg2 sym S p m s hb hsl,
    ⟨⟨sym, "SELL", p, S, S * p - S * p, S * p * TAKER_FEE⟩, ?_, by show S * p - S * p = 0; ring⟩,
    ?_⟩
  · rw [rtClosed, settle_trades]
  · rw [rtClosed, settle_wallet_balance]
    dsimp only
    rw [rtOpened, settle_wallet_balance]
    dsimp only
    ring

/-- Witness: the round-trip theorem applied at size 1, price 100, on a fresh
ledger of balance 1000. -/
theorem round_trip_pnl_zero_net_balance_witness :
    ∃ s₁ s₂, execute_order ⟨"B", "BUY", 1⟩ (initState 1000 1000) mkt100 = some s₁ ∧
      execute_order ⟨"B", "SELL", 1⟩ s₁ mkt100 = some s₂ ∧
      (∃ t, s₂.trades = s₁.trades ++ [t] ∧ t.pnl = 0) ∧
      s₂.wallet_balance = (initState 1000 1000).wallet_balance - 1 * 100 - 2 * (1 * 100 * TAKER_FEE) :=
  round_trip_pnl_zero_net_balance "B" 1 100 mkt100 (initState 1000 1000)
    (by norm_num) (by norm_num) rfl rfl (slippage_mkt100 1) rfl

/-- C1 as stated is false: the concrete round trip of size 1 at price 100
from balance 1000 ends at 899.92, not at the claimed 1000 minus two
commissions = 999.92. -/
theorem round_trip_claim_counterexample :
    ∃ s₁ s₂, execute_order ⟨"B", "BUY", 1⟩ (initState 1000 1000) mkt100 = some s₁ ∧
      execute_order ⟨"B", "SELL", 1⟩ s₁ mkt100 = some s₂ ∧
      s₂.wallet_balance = 89992 / 100 ∧
      ¬ s₂.wallet_balance = (initState 1000 1000).wallet_balance - 2 * (1 * 100 * TAKER_FEE) := by
  refine ⟨_, _, round_trip_leg1 "B" 1 100 mkt100 (initState 1000 1000) rfl (slippage_mkt100 1) rfl,
    round_trip_leg2 "B" 1 100 mkt100 (initState 1000 1000) rfl (slippage_mkt100 1), ?_, ?_⟩
  · rw [rtClosed, settle_wallet_balance]
    dsimp only
    rw [rtOpened, settle_wallet_balance]
    dsimp only
    norm_num [initState, TAKER_FEE]
  · rw [rtClosed, settle_wallet_balance]
    dsimp only
    rw [rtOpened, settle_wallet_balance]
    dsimp only
    norm_num [initState, TAKER_FEE]

/-- C2 is contradicted by the code: `execute_order` performs no size
validation, so a BUY of size −1 on a fresh ledger is executed like any
order — it creates a Position of size −1, INCREASES the wallet balance by
the negative notional plus commission (1000 becomes 1100.04), and appends
a Trade — instead of rejecting the order and leaving the state unchanged. -/
theorem nonpositive_order_executes :
    ∃ s', execute_order ⟨"B", "BUY", -1⟩ (initState 1000 1000) mkt100 = some s' ∧
      s'.positions "B" = some ⟨"B", "LONG", -1, 100⟩ ∧
      s'.wallet_balance = 110004 / 100 ∧
      s'.trades.length = 1 := by
  refine ⟨_, round_trip_leg1 "B" (-1) 100 mkt100 (initState 1000 1000) rfl
    (slippage_mkt100 (-1)) rfl, ?_, ?_, ?_⟩
  · rw [rtOpened, settle_positions]
    simp
  · rw [rtOpened, settle_wallet_balance]
    dsimp only
    norm_num [initState, TAKER_FEE]
  · rw [rtOpened, settle_trades]
    simp [initState]

/-- C3 (amended): starting from a state with nonnegative high-water mark,
each successful execution leaves the high-water mark no smaller than
before, and the resulting drawdown is nonnegative; it is at most 1 whenever
the resulting wallet balance is nonnegative.  (A fill that drives the
balance negative pushes the drawdown above 1.) -/
theorem hwm_monotone_drawdown_bounds (o : Order) (s : TradingState) (m : MarketData)
    (s' : TradingState) (hh : 0 ≤ s.risk_metrics.high_water_mark)
    (h : execute_order o s m = some s') :
    s.risk_metrics.high_water_mark ≤ s'.risk_metrics.high_water_mark ∧
      0 ≤ s'.risk_metrics.current_drawdown ∧
      (0 ≤ s'.wallet_balance → s'.risk_metrics.current_drawdown ≤ 1) :=
  execOrderFuel_risk 2 o s m s' hh h

/-- Witness: the risk-metric bounds at a concrete BUY on a fresh ledger. -/
theorem hwm_monotone_drawdown_bounds_witness :
    ∃ s', execute_order ⟨"B", "BUY", 1⟩ (initState 1000 1000) mkt100 = some s' ∧
      ((initState 1000 1000).risk_metrics.high_water_mark ≤ s'.risk_metrics.high_water_mark ∧
        0 ≤ s'.risk_metrics.current_drawdown ∧
        (0 ≤ s'.wallet_balance → s'.risk_metrics.current_drawdown ≤ 1)) :=
  ⟨_, round_trip_leg1 "B" 1 100 mkt100 (initState 1000 1000) rfl (slippage_mkt100 1) rfl,
    hwm_monotone_drawdown_bounds _ _ _ _ (by norm_num [initState])
      (round_trip_leg1 "B" 1 100 mkt100 (initState 1000 1000) rfl (slippage_mkt100 1) rfl)⟩

/-- C3 as stated is false: a BUY of size 2 at price 100 from balance 100
(high-water mark 100, which is nonnegative) drives the balance to −100.08,
and the recomputed drawdown is 2.0008, outside [0, 1]. -/
theorem drawdown_range_counterexample :
    ∃ s', execute_order ⟨"B", "BUY", 2⟩ (initState 100 100) mkt100 = some s' ∧
      0 ≤ (initState 100 100).risk_metrics.high_water_mark ∧
      s'.risk_metrics.current_drawdown = 2501 / 1250 ∧
      ¬ s'.risk_metrics.current_drawdown ≤ 1 := by
  refine ⟨_, round_trip_leg1 "B" 2 100 mkt100 (initState 100 100) rfl
    (slippage_mkt100 2) rfl, by norm_num [initState], ?_, ?_⟩
  · rw [rtOpened, settle_dd]
    dsimp only
    norm_num [initState, TAKER_FEE, max_def]
  · rw [rtOpened, settle_dd]
    dsimp only
    norm_num [initState, TAKER_FEE, max_def]

/-- A ledger holding one LONG position of size P entered at e for the
symbol, with no trade history. -/
def posState (sym : String) (P e bal hwm : ℚ) : TradingState :=
  ⟨bal, fun x => if x = sym then some ⟨sym, "LONG", P, e⟩ else none, [], ⟨hwm, 0⟩, 0⟩

lemma posState_lookup (sym : String) (P e bal hwm : ℚ) :
    (posState sym P e bal hwm).positions sym = some ⟨sym, "LONG", P, e⟩ := by
  simp [posState]

/-- C4 (amended): a SELL of size S against a LONG of size 0 < P < S fully
closes the LONG, realizing P*(e₁ − entry) where e₁ is the closing execution
price, but charges the closing commission on the FULL order notional S*e₁
(not on the closed notional P*e₁); it then opens a new SHORT of the residual
size S − P at its execution price e₂, debiting that notional plus its
commission, the total balance move being the sum of the two legs. -/
theorem oversized_sell_two_legs (sym : String) (S P e : ℚ) (m : MarketData)
    (s : TradingState) (hp : s.positions sym = some ⟨sym, "LONG", P, e⟩)
    (hP : 0 < P) (hPS : P < S) :
    ∃ s', execute_order ⟨sym, "SELL", S⟩ s m = some s' ∧
      s'.positions sym = some ⟨sym, "SHORT", S - P, exec_price_of ⟨sym, "SELL", S - P⟩ m⟩ ∧
      s'.wallet_balance = s.wallet_balance
        + (P * (exec_price_of ⟨sym, "SELL", S⟩ m - e)
            - S * exec_price_of ⟨sym, "SELL", S⟩ m * TAKER_FEE)
        - ((S - P) * exec_price_of ⟨sym, "SELL", S - P⟩ m
            + (S - P) * exec_price_of ⟨sym, "SELL", S - P⟩ m * TAKER_FEE) := by
  refine ⟨_, oversized_sell_eval sym S P e m s hp hPS, ?_, ?_⟩
  · rw [ovFinal, settle_positions]
    simp
  · rw [ovFinal, settle_wallet_balance]
    dsimp only [ovMid]
    ring

/-- Witness: the oversized SELL theorem at P = 1, S = 2, entry 100, on the
degenerate zero-slippage snapshot. -/
theorem oversized_sell_two_legs_witness :
    ∃ s', execute_order ⟨"B", "SELL", 2⟩ (posState "B" 1 100 1000 1000) mkt100 = some s' ∧
      s'.positions "B" = some ⟨"B", "SHORT", 2 - 1, exec_price_of ⟨"B", "SELL", 2 - 1⟩ mkt100⟩ ∧
      s'.wallet_balance = (posState "B" 1 100 1000 1000).wallet_balance
        + (1 * (exec_price_of ⟨"B", "SELL", 2⟩ mkt100 - 100)
            - 2 * exec_price_of ⟨"B", "SELL", 2⟩ mkt100 * TAKER_FEE)
        - ((2 - 1) * exec_price_of ⟨"B", "SELL", 2 - 1⟩ mkt100
            + (2 - 1) * exec_price_of ⟨"B", "SELL", 2 - 1⟩ mkt100 * TAKER_FEE) :=
  oversized_sell_two_legs "B" 2 1 100 mkt100 (posState "B" 1 100 1000 1000)
    (posState_lookup "B" 1 100 1000 1000) (by norm_num) (by norm_num)

/-- C4 as stated is false: closing LONG 1 at 100 with SELL 2 at unchanged
price 100 from balance 1000 leaves 899.88 (closing commission charged on
the full order notional 200), not the 899.92 that the claimed two-leg
decomposition with commission on the closed notional 100 would give. -/
theorem oversized_commission_counterexample :
    ∃ s', execute_order ⟨"B", "SELL", 2⟩ (posState "B" 1 100 1000 1000) mkt100 = some s' ∧
      s'.wallet_balance = 89988 / 100 ∧
      ¬ s'.wallet_balance = (posState "B" 1 100 1000 1000).wallet_balance
          + (1 * (100 - 100) - 1 * 100 * TAKER_FEE)
          - (1 * 100 + 1 * 100 * TAKER_FEE) := by
  refine ⟨_, oversized_sell_eval "B" 2 1 100 mkt100 (posState "B" 1 100 1000 1000)
    (posState_lookup "B" 1 100 1000 1000) (by norm_num), ?_, ?_⟩
  · rw [ovFinal, settle_wallet_balance]
    dsimp only [ovMid]
    norm_num [posState, exec_price_mkt100, TAKER_FEE]
  · rw [ovFinal, settle_wallet_balance]
    dsimp only [ovMid]
    norm_num [posState, exec_price_mkt100, TAKER_FEE]

/-- C5 (amended): every successful execution appends exactly one immutable
Trade record, the previous records surviving unchanged as a prefix.  In
particular the oversized-close path records ONLY the residual opening leg:
the early return on the closing leg skips its Trade record. -/
theorem execution_appends_single_trade (o : Order) (s : TradingState) (m : MarketData)
    (s' : TradingState) (h : execute_order o s m = some s') :
    ∃ t, s'.trades = s.trades ++ [t] :=
  execOrderFuel_trades_append 2 o s m s' h

/-- Witness: the single-append theorem at a concrete BUY on a fresh ledger. -/
theorem execution_appends_single_trade_witness :
    ∃ s', execute_order ⟨"B", "BUY", 1⟩ (initState 1000 1000) mkt100 = some s' ∧
      ∃ t, s'.trades = (initState 1000 1000).trades ++ [t] :=
  ⟨_, round_trip_leg1 "B" 1 100 mkt100 (initState 1000 1000) rfl (slippage_mkt100 1) rfl,
    execution_appends_single_trade _ _ _ _
      (round_trip_leg1 "B" 1 100 mkt100 (initState 1000 1000) rfl (slippage_mkt100 1) rfl)⟩

/-- C5 as stated is false: an oversized SELL (size 2 against a LONG of
size 1) appends ONE trade record, not two — the closing leg of the full
close is never recorded because the code returns the recursive residual
call before reaching the Trade append. -/
theorem oversized_single_trade_counterexample :
    ∃ s', execute_order ⟨"B", "SELL", 2⟩ (posState "B" 1 100 1000 1000) mkt100 = some s' ∧
      s'.trades.length = 1 ∧ ¬ s'.trades.length = 2 := by
  refine ⟨_, oversized_sell_eval "B" 2 1 100 mkt100 (posState "B" 1 100 1000 1000)
    (posState_lookup "B" 1 100 1000 1000) (by norm_num), ?_, ?_⟩
  · rw [ovFinal, settle_trades]
    simp [ovMid, posState]
  · rw [ovFinal, settle_trades]
    simp [ovMid, posState]

/-- Ties-to-even rounding of a rational to an integer, the rounding rule
IEEE-754 applies to the mantissa. -/
def rne (x : ℚ) : ℤ :=
  let f := ⌊x⌋
  if x - f < 1/2 then f
  else if 1/2 < x - f then f + 1
  else if 2 ∣ f then f else f + 1

/-- Round a rational to the nearest IEEE-754 binary64 value, modelled
exactly: a nonzero value is scaled by its binade exponent to a 53-bit
mantissa, rounded ties-to-even, and rescaled.  Exponent clamping (overflow
and subnormal underflow) is not modelled; every quantity in the
computations verified here lies well inside the normal range. -/
def roundFloat (q : ℚ) : ℚ :=
  if q = 0 then 0
  else
    let s := |q|
    let e : ℤ := Int.log 2 s
    let m : ℤ := rne (s * (2 : ℚ) ^ (52 - e))
    (if 0 < q then 1 else -1) * ((m : ℚ) * (2 : ℚ) ^ (e - 52))

/-- Python float subtraction: exact difference, rounded to binary64. -/
def fsub (a b : ℚ) : ℚ := roundFloat (a - b)

/-- Python float division: exact quotient, rounded to binary64. -/
def fdiv (a b : ℚ) : ℚ := roundFloat (a / b)

/-- Python float multiplication: exact product, rounded to binary64. -/
def fmul (a b : ℚ) : ℚ := roundFloat (a * b)

/-- Python int-to-float conversion. -/
def foInt (i : ℤ) : ℚ := roundFloat i

/-- Python `int()` applied to a float: truncation toward zero. -/
def pyInt (x : ℚ) : ℤ := if 0 ≤ x then ⌊x⌋ else -⌊-x⌋

/-- `DRAWDOWN_HARD_STOP` of `risk_controller.py`: the binary64 value of the
literal 0.08. -/
def DRAWDOWN_HARD_STOP : ℚ := 5764607523034235 / 72057594037927936

/-- `DRAWDOWN_LEVEL_1` of `risk_controller.py`: the binary64 value of the
literal 0.05. -/
def DRAWDOWN_LEVEL_1 : ℚ := 3602879701896397 / 72057594037927936

/-- The binary64 value of the literal 0.01 dividing the drawdown excess. -/
def centStep : ℚ := 5764607523034235 / 576460752303423488

/-- `DRAWDOWN_REDUCTION_STEP` = 0.25, exactly representable in binary64. -/
def DRAWDOWN_REDUCTION_STEP : ℚ := 1 / 4

/-- `RiskManager.check_drawdown`, its float subtraction, division and
int-to-float multiplication modelled as correctly rounded binary64
operations (comparisons and `max` are exact on floats; 1 − 0.25·k is exact
for the small k arising here but is still routed through the rounded
operations).  Returns the risk adjustment factor and the hard-stop flag. -/
def check_drawdown (state : TradingState) : ℚ × Bool :=
  let drawdown := state.risk_metrics.current_drawdown
  if DRAWDOWN_HARD_STOP ≤ drawdown then (0, true)
  else if DRAWDOWN_LEVEL_1 ≤ drawdown then
    let dd_steps : ℤ := pyInt (fdiv (fsub drawdown DRAWDOWN_LEVEL_1) centStep)
    let reduction := fmul (foInt (dd_steps + 1)) DRAWDOWN_REDUCTION_STEP
    (max 0 (fsub 1 reduction), false)
  else (1, false)

lemma int_log_eval {q : ℚ} {e : ℤ} (hq : 0 < q) (h₁ : (2:ℚ) ^ e ≤ q)
    (h₂ : q < (2:ℚ) ^ (e + 1)) : Int.log 2 q = e := by
  have hle : e ≤ Int.log 2 q := (Int.zpow_le_iff_le_log (by norm_num) hq).1 h₁
  have hlt : Int.log 2 q < e + 1 := (Int.lt_zpow_iff_log_lt (by norm_num) hq).1 h₂
  omega

lemma rne_eval {x : ℚ} {f : ℤ} (hf : ⌊x⌋ = f) (hlt : x - f < 1/2) : rne x = f := by
  unfold rne
  rw [hf, if_pos hlt]

lemma roundFloat_eval_pos {q r : ℚ} {e v : ℤ} (hq : 0 < q)
    (h₁ : (2:ℚ) ^ e ≤ q) (h₂ : q < (2:ℚ) ^ (e + 1))
    (hm : rne (q * (2:ℚ) ^ (52 - e)) = v)
    (hr : (v : ℚ) * (2:ℚ) ^ (e - 52) = r) :
    roundFloat q = r := by
  unfold roundFloat
  rw [if_neg hq.ne', abs_of_pos hq]
  dsimp only
  rw [int_log_eval hq h₁ h₂, hm, if_pos hq, one_mul, hr]

/-- The binary64 value of the literal 0.06. -/
def dbl006 : ℚ := 1080863910568919 / 18014398509481984

/-- A ledger whose current drawdown is the binary64 value of 0.06 (balance
940 against a high-water mark of 1000). -/
def state006 : TradingState := ⟨940, fun _ => none, [], ⟨1000, dbl006⟩, 0⟩

lemma fsub_006_005 : fsub dbl006 DRAWDOWN_LEVEL_1 = 720575940379279 / 72057594037927936 := by
  unfold fsub
  have hd : dbl006 - DRAWDOWN_LEVEL_1 = 720575940379279 / 72057594037927936 := by
    norm_num [dbl006, DRAWDOWN_LEVEL_1]
  rw [hd]
  refine roundFloat_eval_pos (e := -7) (v := 5764607523034232)
    (by norm_num) (by norm_num) (by norm_num) ?_ (by norm_num)
  refine rne_eval ?_ (by norm_num)
  rw [Int.floor_eq_iff]
  constructor <;> norm_num

lemma fdiv_diff_cent : fdiv (720575940379279 / 72057594037927936) centStep =
    9007199254740987 / 9007199254740992 := by
  unfold fdiv
  have hd : (720575940379279 / 72057594037927936 : ℚ) / centStep =
      5764607523034232 / 5764607523034235 := by
    norm_num [centStep]
  rw [hd]
  refine roundFloat_eval_pos (e := -1) (v := 9007199254740987)
    (by norm_num) (by norm_num) (by norm_num) ?_ (by norm_num)
  refine rne_eval ?_ (by norm_num)
  rw [Int.floor_eq_iff]
  constructor <;> norm_num

lemma pyInt_quot : pyInt (9007199254740987 / 9007199254740992) = 0 := by
  unfold pyInt
  rw [if_pos (by norm_num), Int.floor_eq_iff]
  constructor <;> norm_num

lemma foInt_one : foInt (0 + 1) = 1 := by
  unfold foInt
  have h : (((0 + 1 : ℤ)) : ℚ) = 1 := by norm_num
  rw [h]
  refine roundFloat_eval_pos (e := 0) (v := 4503599627370496)
    (by norm_num) (by norm_num) (by norm_num) ?_ (by norm_num)
  refine rne_eval ?_ (by norm_num)
  rw [Int.floor_eq_iff]
  constructor <;> norm_num

lemma fmul_one_quarter : fmul 1 DRAWDOWN_REDUCTION_STEP = 1 / 4 := by
  unfold fmul
  have h : (1 : ℚ) * DRAWDOWN_REDUCTION_STEP = 1 / 4 := by
    norm_num [DRAWDOWN_REDUCTION_STEP]
  rw [h]
  refine roundFloat_eval_pos (e := -2) (v := 4503599627370496)
    (by norm_num) (by norm_num) (by norm_num) ?_ (by norm_num)
  refine rne_eval ?_ (by norm_num)
  rw [Int.floor_eq_iff]
  constructor <;> norm_num

lemma fsub_one_quarter : fsub 1 (1 / 4) = 3 / 4 := by
  unfold fsub
  have h : (1 : ℚ) - 1 / 4 = 3 / 4 := by norm_num
  rw [h]
  refine roundFloat_eval_pos (e := -1) (v := 6755399441055744)
    (by norm_num) (by norm_num) (by norm_num) ?_ (by norm_num)
  refine rne_eval ?_ (by norm_num)
  rw [Int.floor_eq_iff]
  constructor <;> norm_num

/-- C6: on a ledger whose current drawdown is (the binary64 value of) 0.06,
below the 0.08 hard stop, the drawdown adjustment factor is exactly 0.75:
the float quotient (0.06 − 0.05)/0.01 evaluates to just below 1, so
truncation gives 0 steps, the reduction is (0+1)·0.25 = 0.25, and the
factor is max(0, 1 − 0.25) = 0.75, with no hard stop. -/
theorem drawdown_factor_at_006 : check_drawdown state006 = (3/4, false) := by
  simp only [check_drawdown, state006]
  rw [if_neg (by norm_num [DRAWDOWN_HARD_STOP, dbl006]),
    if_pos (by norm_num [DRAWDOWN_LEVEL_1, dbl006]),
    fsub_006_005, fdiv_diff_cent, pyInt_quot, foInt_one, fmul_one_quarter,
    fsub_one_quarter, max_eq_right (by norm_num : (0:ℚ) ≤ 3/4)]

/-- `KELLY_HISTORY` of `risk_controller.py` (last 50 trades). -/
def KELLY_HISTORY : ℕ := 50

/-- `MAX_RISK_PER_TRADE` (1.5 percent). -/
def MAX_RISK_PER_TRADE : ℚ := 15 / 1000

/-- `RECOVERY_MODE_RISK` (0.5 percent). -/
def RECOVERY_MODE_RISK : ℚ := 5 / 1000

/-- `VOLATILITY_TARGET` (2 percent). -/
def VOLATILITY_TARGET : ℚ := 2 / 100

/-- `MIN_ORDER_USD`. -/
def MIN_ORDER_USD : ℚ := 10

/-- `MAX_ORDER_USD`. -/
def MAX_ORDER_USD : ℚ := 1000

/-- Modelled from the spec: `PredictionSignal` of `core_engine.py`
(timestamp omitted; details as an association list timeframe to percent). -/
structure PredictionSignal where
  symbol : String
  fused_prediction_pct : ℚ
  confidence : ℚ
  decision : String
  details : List (String × ℚ)

/-- `RiskManager._calculate_win_rate_and_odds` over the last 50 trades.
`none` in the odds component models the `float(inf)` the source returns
when the average loss is zero. -/
def calculate_win_rate_and_odds (trades : List Trade) : ℚ × Option ℚ :=
  let recent := trades.drop (trades.length - KELLY_HISTORY)
  if recent.length < 20 then (1/2, some 1)
  else
    let wins := (recent.filter fun t => 0 < t.pnl).map Trade.pnl
    let losses := (recent.filter fun t => t.pnl ≤ 0).map fun t => |t.pnl|
    if wins = [] ∨ losses = [] then (1/2, some 1)
    else
      let win_rate := (wins.length : ℚ) / recent.length
      let avg_win := wins.sum / wins.length
      let avg_loss := losses.sum / losses.length
      if 0 < avg_loss then (win_rate, some (avg_win / avg_loss))
      else (win_rate, none)

/-- `RiskManager.calculate_position_size`.  The realized volatility is the
value `_calculate_realized_volatility` extracts from the pandas 1h candle
frame; the candle frames sit outside the embedding, so that value enters as
the parameter `volatility` (the source guarantees it is positive, falling
back to `VOLATILITY_TARGET`).  Infinite odds (odds `none`) propagate in
CPython through `p*inf − (1−p) = inf`, `inf/inf = nan` and
`max(0, nan·0.5) = 0`, so they are modelled as a zero Kelly fraction.  The
`signal` argument is accepted and unused, as in the source. -/
def calculate_position_size (state : TradingState) (signal : PredictionSignal)
    (volatility : ℚ) (price : ℚ) : ℚ :=
  let dd := check_drawdown state
  if dd.2 then 0
  else
    let in_recovery_mode := state.wallet_balance < state.risk_metrics.high_water_mark
    let max_risk := if in_recovery_mode then RECOVERY_MODE_RISK else MAX_RISK_PER_TRADE
    let wo := calculate_win_rate_and_odds state.trades
    let kelly_fraction : ℚ :=
      match wo.2 with
      | some odds => if 0 < odds then (wo.1 * odds - (1 - wo.1)) / odds else 0
      | none => 0
    let target_risk_pct := max 0 (kelly_fraction * (1/2))
    let capped_risk_pct := min target_risk_pct max_risk
    let vol_adj_factor := min 1 (VOLATILITY_TARGET / volatility)
    let final_risk_pct := capped_risk_pct * (dd.1 * vol_adj_factor)
    if final_risk_pct ≤ 0 then 0
    else
      let position_size_usd := state.wallet_balance * final_risk_pct
      let bounded_usd := max MIN_ORDER_USD (min position_size_usd MAX_ORDER_USD)
      let capped_usd := if state.wallet_balance < bounded_usd then state.wallet_balance else bounded_usd
      if price ≤ 0 then 0 else capped_usd / price

/-- C10: a ledger with fewer than 20 recorded trades gets the conservative
default win rate 0.5 and odds 1, whose Kelly fraction is 0; the target risk
and hence the computed position size are 0 for every signal, volatility and
price — the sizer never authorizes a trade before 20 trades exist. -/
theorem position_size_zero_before_20_trades (state : TradingState)
    (signal : PredictionSignal) (volatility price : ℚ)
    (h : state.trades.length < 20) :
    calculate_position_size state signal volatility price = 0 := by
  have hwo : calculate_win_rate_and_odds state.trades = (1/2, some 1) := by
    unfold calculate_win_rate_and_odds
    have hlen : (state.trades.drop (state.trades.length - KELLY_HISTORY)).length < 20 := by
      rw [List.length_drop]
      omega
    rw [if_pos hlen]
  have hkelly : ((1:ℚ)/2 * 1 - (1 - 1/2)) / 1 = 0 := by norm_num
  simp only [calculate_position_size, hwo]
  rw [if_pos (by norm_num : (0:ℚ) < 1), hkelly]
  rw [show max (0:ℚ) (0 * (1/2)) = 0 by norm_num]
  rw [min_eq_left (by
    split_ifs <;> norm_num [RECOVERY_MODE_RISK, MAX_RISK_PER_TRADE] :
      (0:ℚ) ≤ if state.wallet_balance < state.risk_metrics.high_water_mark then
        RECOVERY_MODE_RISK else MAX_RISK_PER_TRADE)]
  rw [zero_mul, if_pos (le_refl (0:ℚ))]
  split_ifs <;> rfl

/-- Witness: the sizer returns 0 on a fresh ledger (0 recorded trades). -/
theorem position_size_zero_before_20_trades_witness :
    (initState 1000 1000).trades.length < 20 ∧
    calculate_position_size (initState 1000 1000)
      ⟨"BTCUSDT", 0, 0, "WAITING", []⟩ (2/100) 100 = 0 :=
  ⟨by norm_num [initState],
    position_size_zero_before_20_trades _ _ _ _ (by norm_num [initState])⟩

/-- A snapshot with positive spread whose single top ask level carries zero
quantity. -/
def mktZeroDepth : MarketData := ⟨100, 100, 101, 10, [], [(101, 0)], 0⟩

/-- C7 (amended): slippage is 0 — and the execution price equals the quoted
ask (BUY) or bid (SELL) exactly — whenever the cached spread is non-positive
or the ask book is empty; but when a top ask level is PRESENT with zero
quantity and the spread is positive, the code returns spread·0.1 instead
of 0, so the execution price deviates from the quote. -/
theorem slippage_zero_and_zero_depth :
    (∀ (sz : ℚ) (m : MarketData), m.spread ≤ 0 ∨ m.top_5_asks = [] →
      calculate_slippage sz m = 0) ∧
    (∀ (o : Order) (m : MarketData), m.spread ≤ 0 ∨ m.top_5_asks = [] →
      exec_price_of o m = if o.side = "BUY" then m.ask else m.bid) ∧
    (∀ (sz pr : ℚ) (rest : List (ℚ × ℚ)) (m : MarketData),
      0 < m.spread → m.top_5_asks = (pr, 0) :: rest →
      calculate_slippage sz m = m.spread * SLIPPAGE_FACTOR) := by
  refine ⟨?_, ?_, ?_⟩
  · intro sz m h
    unfold calculate_slippage
    rw [if_pos h]
  · intro o m h
    have h0 : calculate_slippage o.size m = 0 := by
      unfold calculate_slippage
      rw [if_pos h]
    unfold exec_price_of
    rw [h0]
    split_ifs <;> ring
  · intro sz pr rest m hs hb
    simp [calculate_slippage, hb, hs.not_le]

/-- Witness: the zero cases at the flat snapshot, and the zero-depth branch
at the zero-quantity snapshot. -/
theorem slippage_zero_and_zero_depth_witness :
    calculate_slippage 5 mkt100 = 0 ∧
    exec_price_of ⟨"B", "BUY", 5⟩ mkt100 =
      (if (⟨"B", "BUY", 5⟩ : Order).side = "BUY" then mkt100.ask else mkt100.bid) ∧
    calculate_slippage 5 mktZeroDepth = mktZeroDepth.spread * SLIPPAGE_FACTOR :=
  ⟨slippage_zero_and_zero_depth.1 5 mkt100 (Or.inl (by norm_num [mkt100])),
   slippage_zero_and_zero_depth.2.1 ⟨"B", "BUY", 5⟩ mkt100 (Or.inl (by norm_num [mkt100])),
   slippage_zero_and_zero_depth.2.2 5 101 [] mktZeroDepth (by norm_num [mktZeroDepth]) rfl⟩

/-- C7 as stated is false: with spread 10 and a top ask level of zero
quantity, the computed slippage is 1, not 0, and a BUY executes at 102
rather than at the quoted ask 101. -/
theorem zero_depth_slippage_counterexample :
    calculate_slippage 1 mktZeroDepth = 1 ∧
    ¬ calculate_slippage 1 mktZeroDepth = 0 ∧
    exec_price_of ⟨"B", "BUY", 1⟩ mktZeroDepth = 102 ∧
    ¬ exec_price_of ⟨"B", "BUY", 1⟩ mktZeroDepth = mktZeroDepth.ask := by
  have h : calculate_slippage 1 mktZeroDepth = 1 := by
    norm_num [calculate_slippage, mktZeroDepth, SLIPPAGE_FACTOR]
  have h2 : exec_price_of ⟨"B", "BUY", 1⟩ mktZeroDepth = 102 := by
    unfold exec_price_of
    dsimp only
    rw [if_pos rfl, h]
    norm_num [mktZeroDepth]
  refine ⟨h, by rw [h]; norm_num, h2, by rw [h2]; norm_num [mktZeroDepth]⟩

/-- `CONFIDENCE_THRESHOLD` of `chronos_predictor.py` (0.7). -/
def CONFIDENCE_THRESHOLD : ℚ := 7 / 10

/-- `TIME_FRAME_WEIGHTS` of `chronos_predictor.py` as a lookup with default
0, the way `dict.get(timeframe, 0)` reads it. -/
def TIME_FRAME_WEIGHTS (tf : String) : ℚ :=
  if tf = "1m" then 1/10
  else if tf = "3m" then 3/20
  else if tf = "5m" then 1/5
  else if tf = "15m" then 1/4
  else if tf = "30m" then 3/20
  else if tf = "1h" then 3/20
  else 0

/-- The sum of all static timeframe weights, the denominator of the overall
confidence (`sum(TIME_FRAME_WEIGHTS.values())`). -/
def TFW_SUM : ℚ := 1/10 + 3/20 + 1/5 + 1/4 + 3/20 + 3/20

/-- The fusion tail of `predict_multi_timeframe`.  The thread-pool fan-out
and the Chronos forecasts are outside the embedding: the completed
per-timeframe results (timeframe, prediction, confidence) — including the
(0, 0) pairs substituted for failed or data-starved timeframes — enter as a
list, and retention above the confidence threshold, weighted fusion, the
decision rule and signal assembly follow the source. -/
def predict_multi_timeframe_fusion (symbol : String)
    (completed : List (String × ℚ × ℚ)) : PredictionSignal :=
  let results := completed.filter fun r => CONFIDENCE_THRESHOLD < r.2.2
  let fused_num := (results.map fun r => r.2.1 * r.2.2 * TIME_FRAME_WEIGHTS r.1).sum
  let total_weight := (results.map fun r => r.2.2 * TIME_FRAME_WEIGHTS r.1).sum
  let fused := if results = [] then 0
    else if 0 < total_weight then fused_num / total_weight else fused_num
  let decision :=
    if 1/2000 < fused then "LONG_ENTRY"
    else if fused < -(1/2000) then "SHORT_ENTRY"
    else "WAITING"
  { symbol := symbol
    fused_prediction_pct := fused * 100
    confidence := if results = [] then 0 else total_weight / TFW_SUM
    decision := decision
    details := results.map fun r => (r.1, r.2.1 * 100) }

/-- C8: when no completed timeframe result exceeds the 0.7 confidence
threshold — in particular when every per-timeframe computation failed and
contributed (0, 0) — fusion retains nothing and emits a signal with
decision WAITING, confidence 0 and fused prediction percentage 0. -/
theorem fusion_all_below_threshold_waiting (symbol : String)
    (completed : List (String × ℚ × ℚ))
    (h : ∀ r ∈ completed, r.2.2 ≤ CONFIDENCE_THRESHOLD) :
    (predict_multi_timeframe_fusion symbol completed).decision = "WAITING" ∧
    (predict_multi_timeframe_fusion symbol completed).confidence = 0 ∧
    (predict_multi_timeframe_fusion symbol completed).fused_prediction_pct = 0 := by
  have hres : completed.filter (fun r => decide (CONFIDENCE_THRESHOLD < r.2.2)) = [] := by
    rw [List.filter_eq_nil]
    intro a ha
    simpa using h a ha
  refine ⟨?_, ?_, ?_⟩ <;>
    · simp only [predict_multi_timeframe_fusion, hres]
      norm_num

/-- Witness: fusion of a single low-confidence timeframe result degrades to
WAITING with zero confidence. -/
theorem fusion_all_below_threshold_waiting_witness :
    (predict_multi_timeframe_fusion "BTCUSDT" [("1m", 1/100, 1/2)]).decision = "WAITING" ∧
    (predict_multi_timeframe_fusion "BTCUSDT" [("1m", 1/100, 1/2)]).confidence = 0 ∧
    (predict_multi_timeframe_fusion "BTCUSDT" [("1m", 1/100, 1/2)]).fused_prediction_pct = 0 :=
  fusion_all_below_threshold_waiting "BTCUSDT" [("1m", 1/100, 1/2)] (by
    intro r hr
    rw [List.mem_singleton] at hr
    subst hr
    norm_num [CONFIDENCE_THRESHOLD])
